import Mathlib

/-!
Shallow embedding of `src/filesystem/file_organizer.py` (PyUtility).

The filesystem is modelled as a snapshot of file paths and directory paths,
a path being its list of name components from the root.  The two organizer
strategies (`SingleFile`, `RenameFile`/`HexOfbfuscated`) are translated as
folds over the traversal snapshot the Python code builds up front with
`glob` over the recursive wildcard pattern, threading the evolving filesystem, the printed actions and
the process exit code.  External collaborators (mimetypes, guessit, ffmpeg
probing) are parameters, as the spec directs in its §6.
-/

namespace FileOrganizer

/-- A filesystem path: its list of name components from the root. -/
abbrev FPath := List String

/-- A snapshot of the filesystem: which paths are regular files and which are
directories. -/
structure FS where
  files : List FPath
  dirs : List FPath
deriving DecidableEq, Repr

/-- Path.exists(): some file or directory occupies the path. -/
def FS.existsPath (fs : FS) (p : FPath) : Bool :=
  fs.files.contains p || fs.dirs.contains p

/-- PurePath.parent (and pure.parents[0]): drop the last component. -/
def parentOf (p : FPath) : FPath := p.dropLast

/-- PurePath.name: the last component. -/
def nameOf (p : FPath) : String := p.getLastD ""

/-- my_dir.iterdir() restricted to regular files: the files whose parent is
`d`, in filesystem-list order. -/
def childrenFiles (fs : FS) (d : FPath) : List FPath :=
  fs.files.filter (fun f => parentOf f == d)

/-- my_dir.iterdir() restricted to directories. -/
def childrenDirs (fs : FS) (d : FPath) : List FPath :=
  fs.dirs.filter (fun x => parentOf x == d)

/-- Membership in the glob of dir_path over the recursive wildcard: `p` is a strict descendant of
`root` (the glob never yields `root` itself). -/
def strictUnder (root p : FPath) : Bool :=
  root.isPrefixOf p && !(p == root)

/-- One printed action of a run (the code prints before it mutates). -/
inductive Action where
  | move (src tgt : FPath)
  | removeDir (d : FPath)
  | skip (name : String)
  | convert (src tgt : FPath)
deriving DecidableEq, Repr

/-- The evolving state of one organizer run: the filesystem, the actions
printed so far, and the exit code once `sys.exit` has run. -/
structure OrgState where
  fs : FS
  log : List Action
  exitCode : Option Nat
deriving DecidableEq, Repr

/-- Path.rename(src, tgt) as POSIX performs it: `src` leaves its old path and
occupies `tgt`, silently replacing any regular file already at `tgt`. -/
def FS.renameFile (fs : FS) (src tgt : FPath) : FS :=
  { fs with files := (fs.files.filter (fun g => !(g == src) && !(g == tgt))) ++ [tgt] }

/-- Path.rmdir(d): the (now empty) directory disappears. -/
def FS.removeDir (fs : FS) (d : FPath) : FS :=
  { fs with dirs := fs.dirs.filter (fun g => !(g == d)) }

/-- The body of the loop of SingleFile.organize_file for one directory of the
traversal snapshot: count the file and subdirectory entries of the directory in
the current filesystem; when it holds exactly one file and no subdirectory,
move that file two levels up (pure.parents[1]) under its own name — unless
the target path exists, in which case sys.exit(1) — and remove the
directory.  Mutations are skipped under --dry-run; the prints are not. -/
def singleFileStep (dryRun : Bool) (st : OrgState) (myDir : FPath) : OrgState :=
  if st.exitCode.isSome then st
  else
    let cf := childrenFiles st.fs myDir
    let cd := childrenDirs st.fs myDir
    if cf.length == 1 && cd.length == 0 then
      let myFile := cf.getLastD []
      let targetDir := parentOf (parentOf myFile)
      let targetFile := targetDir ++ [nameOf myFile]
      if st.fs.existsPath targetFile then
        { st with exitCode := some 1 }
      else
        let fs1 := if dryRun then st.fs else st.fs.renameFile myFile targetFile
        let fs2 := if dryRun then fs1 else fs1.removeDir myDir
        { st with fs := fs2,
                  log := st.log ++ [Action.move myFile targetFile, Action.removeDir myDir] }
    else st

/-- SingleFile.organize_file: snapshot the directories strictly below the
root with the recursive glob, then run the loop body over that snapshot. -/
def singleFileOrganize (dryRun : Bool) (fs : FS) (root : FPath) : OrgState :=
  let dirList := fs.dirs.filter (fun d => strictUnder root d)
  dirList.foldl (singleFileStep dryRun) { fs := fs, log := [], exitCode := none }

/-- Python rfind of the dot over a name: the index of the last dot, if any. -/
def lastDotIdx : List Char → Option Nat
  | [] => none
  | c :: cs =>
    match lastDotIdx cs with
    | some i => some (i + 1)
    | none => if c == '.' then some 0 else none

/-- PurePath.suffix: the part of the name from its last dot on, empty when the
last dot is absent, leading or trailing. -/
def nameSuffix (name : String) : String :=
  match lastDotIdx name.data with
  | none => ""
  | some i => if 0 < i ∧ i < name.length - 1 then String.mk (name.data.drop i) else ""

/-- PurePath.stem: the name with its suffix removed. -/
def nameStem (name : String) : String :=
  match lastDotIdx name.data with
  | none => name
  | some i => if 0 < i ∧ i < name.length - 1 then String.mk (name.data.take i) else name

/-- string.hexdigits. -/
def hexdigits : List Char := "0123456789abcdefABCDEF".data

/-- HexOfbfuscated.is_current_file_name_valid_for_rename, over the candidate
file name: with --force every file passes; otherwise every character of the
stem must be a hexadecimal digit. -/
def is_current_file_name_valid_for_rename (force : Bool) (name : String) : Bool :=
  if force then true else (nameStem name).data.all (fun c => hexdigits.contains c)

/-- str.find(needle) != -1: the needle occurs as a contiguous run of `hay`. -/
def containsSeq (hay needle : String) : Bool :=
  hay.data.tails.any (fun t => needle.data.isPrefixOf t)

/-- Python str.lower over our character data. -/
def strLower (s : String) : String := String.mk (s.data.map Char.toLower)

/-- The file filter of RenameFile.organize_file: with an -m or --mime argument keep
the files whose guessed MIME string contains it case-insensitively
(mime_filter); without one keep every file (no_filter).  `none` stands for
the absent or empty --mime argument, both falsy in the Python. -/
def mimePasses (mime : Option String) (mimeOf : FPath → Option String) (f : FPath) : Bool :=
  match mime with
  | none => true
  | some m =>
    match mimeOf f with
    | none => false
    | some t => containsSeq (strLower t) (strLower m)

/-- The body of the loop of RenameFile.organize_file for one candidate file: skip
it (with a print) when the eligibility predicate rejects its name; otherwise
build the new name from extract_file_name on the parent directory name plus
the old suffix and rename the file in place — unless --dry-run, which only
prints.  `extract` returns `Except.error` where the Python extractor calls
sys.exit or raises, which kills the whole run. -/
def renameStep (dryRun : Bool) (valid : String → Bool)
    (extract : FPath → String → Except String String)
    (st : OrgState) (f : FPath) : OrgState :=
  if st.exitCode.isSome then st
  else
    let currentName := nameOf f
    if !(valid currentName) then { st with log := st.log ++ [Action.skip currentName] }
    else
      let dirName := nameOf (parentOf f)
      match extract f dirName with
      | Except.error _ => { st with exitCode := some 1 }
      | Except.ok base =>
        let newName := base ++ nameSuffix currentName
        let newFile := parentOf f ++ [newName]
        let log1 := st.log ++ [Action.convert f newFile]
        if dryRun then { st with log := log1 }
        else { st with fs := st.fs.renameFile f newFile, log := log1 }

/-- RenameFile.organize_file: snapshot the files strictly below the root that
pass the MIME filter, then run the loop body over that snapshot. -/
def renameOrganize (dryRun : Bool) (mime : Option String) (mimeOf : FPath → Option String)
    (valid : String → Bool) (extract : FPath → String → Except String String)
    (fs : FS) (root : FPath) : OrgState :=
  let files := fs.files.filter (fun f => strictUnder root f && mimePasses mime mimeOf f)
  files.foldl (renameStep dryRun valid extract) { fs := fs, log := [], exitCode := none }

/-- The canonical field set MetaDataExtractor builds: title mandatory, the
rest optional. -/
structure MetaFields where
  title : String
  date : Option String
  episode : Option String
  episode_title : Option String
  screen_size : Option String
deriving DecidableEq, Repr

/-- The helper append(key) inside generate_new_name_field: an absent field
contributes nothing, a present one contributes "-" and its value. -/
def optField (v : Option String) : String :=
  match v with
  | none => ""
  | some s => "-" ++ s

/-- MetaDataExtractor.generate_new_name_field: the title followed by the
optional date, episode, episode_title and screen_size contributions. -/
def generate_new_name_field (d : MetaFields) : String :=
  d.title ++ optField d.date ++ optField d.episode ++ optField d.episode_title
    ++ optField d.screen_size

/-- MetaDataExtractor.guessit_short_date_options. -/
def guessit_short_date_options : List String :=
  ["-Y", "--date-year-first", "-D", "--date-day-first"]

/-- One anchor position of re.search over the pattern of two digits, any
character, two digits, any character, two digits: the unescaped dot of the
pattern matches every character except a newline. -/
def shortDateAt : List Char → Bool
  | c0 :: c1 :: c2 :: c3 :: c4 :: c5 :: c6 :: c7 :: _ =>
    c0.isDigit && c1.isDigit && !(c2 == '\n') && c3.isDigit && c4.isDigit
      && !(c5 == '\n') && c6.isDigit && c7.isDigit
  | _ => false

/-- re.search of the short-date pattern: some anchor position matches. -/
def shortDateSearch (s : String) : Bool := s.data.tails.any shortDateAt

/-- How one call of MetaDataExtractor.guess_it ends: sys.exit with a nonzero
status, an uncaught exception, or a call into the external guessit engine
with the final options string. -/
inductive GuessItCall where
  | exited (msg : String)
  | crashed (msg : String)
  | calls (options : String)
deriving DecidableEq, Repr

/-- MetaDataExtractor.guess_it: sys.exit(1) on a short-date match when the
-g options are absent or hold none of the four date-order options; then an
attribute access on the options (an uncaught AttributeError when they are
None); sys.exit on a -t or --type option; otherwise call guessit with
" -t movie" appended. -/
def guess_it (guessit_options : Option String) (query_str : String) : GuessItCall :=
  let short_date := shortDateSearch query_str
  if short_date &&
      (guessit_options.isNone ||
        guessit_short_date_options.all
          (fun opt => !(containsSeq (guessit_options.getD "") opt))) then
    GuessItCall.exited "Short date detected"
  else
    match guessit_options with
    | none => GuessItCall.crashed "NoneType has no attribute find"
    | some opts =>
      if ["-t", "--type"].any (fun opt => containsSeq opts opt) then
        GuessItCall.exited "You cannot use -t or --type for GuessIt!"
      else GuessItCall.calls (opts ++ " -t movie")

/-- The structured fields the external guessit call can return. -/
structure GuessItOutput where
  title : Option String
  date : Option (Nat × Nat × Nat)
  episode : Option Nat
  episode_title : Option String
  alternative_title : Option String
  screen_size : Option String

/-- How one call of MetaDataExtractor.get_new_name ends. -/
inductive NameResult where
  | exited (msg : String)
  | crashed (msg : String)
  | ok (fields : MetaFields)

/-- Zero-padded decimal of width `w`, as the Python format codes print it. -/
def padNat (w n : Nat) : String :=
  let s := toString n
  String.mk (List.replicate (w - s.length) '0') ++ s

/-- The date format string of get_new_name: year dot month dot day,
zero-padded to widths four, two and two. -/
def formatDate : Nat × Nat × Nat → String
  | (y, m, d) => padNat 4 y ++ "." ++ padNat 2 m ++ "." ++ padNat 2 d

/-- MetaDataExtractor.get_new_name: a file whose guessed MIME string is
absent or lacks "video" takes the suggested name verbatim as title; a video
file goes through guess_it and the external engine, whose title is mandatory
(sys.exit when missing), date is reformatted, episode prefixed "E",
episode_title falls back to alternative_title, and a missing screen_size is
probed from the video stream height of the file, suffixed "p". -/
def get_new_name (mimeOf : FPath → Option String)
    (guessitFn : String → String → GuessItOutput)
    (probeHeight : FPath → Nat)
    (guessit_options : Option String)
    (file_path : FPath) (suggested_name : String) : NameResult :=
  let mime := mimeOf file_path
  if mime.isNone || !(containsSeq (strLower (mime.getD "")) "video") then
    NameResult.ok
      { title := suggested_name, date := none, episode := none,
        episode_title := none, screen_size := none }
  else
    match guess_it guessit_options suggested_name with
    | GuessItCall.exited m => NameResult.exited m
    | GuessItCall.crashed m => NameResult.crashed m
    | GuessItCall.calls opts =>
      let g := guessitFn suggested_name opts
      match g.title with
      | none => NameResult.exited "Cannot extract title"
      | some t =>
        NameResult.ok
          { title := t
            date := g.date.map formatDate
            episode := g.episode.map (fun n => "E" ++ toString n)
            episode_title :=
              match g.episode_title with
              | some v => some v
              | none => g.alternative_title
            screen_size :=
              some (g.screen_size.getD (toString (probeHeight file_path) ++ "p")) }

/-- HexOfbfuscated.extract_file_name: the new_name field of get_new_name on
success; an error where the Python run dies (sys.exit or an uncaught
exception inside the extractor). -/
def hexExtract (mimeOf : FPath → Option String)
    (guessitFn : String → String → GuessItOutput)
    (probeHeight : FPath → Nat)
    (guessit_options : Option String)
    (file_path : FPath) (dir_name : String) : Except String String :=
  match get_new_name mimeOf guessitFn probeHeight guessit_options file_path dir_name with
  | NameResult.ok fields => Except.ok (generate_new_name_field fields)
  | NameResult.exited m => Except.error ("exit: " ++ m)
  | NameResult.crashed m => Except.error ("crash: " ++ m)

/-- The registry register_file_organizers builds. -/
def registryKeys : List String := ["hex_obfuscated", "single_file"]

/-- How main ends before or at the organizer dispatch: the --list exit with
status zero, a sys.exit(1), or a call of the chosen organizer over the path
(recording whether the not-a-directory diagnostic was printed first). -/
inductive MainOutcome where
  | listed
  | exited (msg : String)
  | ranOrganizer (organizer : String) (warnedNotDir : Bool)
deriving DecidableEq, Repr

/-- The dispatch of main after argument parsing: --list exits zero; a missing or
empty --file-organizer and an unknown key exit with status one; a missing
path exits with status one; a path that exists but is not a directory only
prints a diagnostic, after which the organizer still runs over it. -/
def mainDispatch (listFlag : Bool) (file_organizer : Option String)
    (pathExists pathIsDir : Bool) : MainOutcome :=
  if listFlag then MainOutcome.listed
  else
    match file_organizer with
    | none => MainOutcome.exited "You must use --file-organizer"
    | some org =>
      if !(registryKeys.contains org) then
        MainOutcome.exited "Unsupported file organizer"
      else if !pathExists then MainOutcome.exited "does not exist"
      else MainOutcome.ranOrganizer org (!pathIsDir)

/-- Nonempty name fields joined by the dash separator, as §3 of the spec words
the new-name synthesis; compared below against the code function
generate_new_name_field. -/
def joinFields : List String → String
  | [] => ""
  | [x] => x
  | x :: y :: rest => x ++ "-" ++ joinFields (y :: rest)

/-- The present fields of a field set, in the fixed order title, date,
episode, episode_title, screen_size. -/
def presentFields (d : MetaFields) : List String :=
  [d.title] ++ d.date.toList ++ d.episode.toList ++ d.episode_title.toList
    ++ d.screen_size.toList

/-- Running a fold whose step never changes the filesystem leaves the
filesystem unchanged. -/
theorem foldl_fs_eq {α : Type} (step : OrgState → α → OrgState)
    (hstep : ∀ st x, (step st x).fs = st.fs) :
    ∀ (l : List α) (st : OrgState), (l.foldl step st).fs = st.fs := by
  intro l
  induction l with
  | nil => intro st; rfl
  | cons x xs ih => intro st; rw [List.foldl_cons, ih, hstep]

/-- Under --dry-run the SingleFile loop body never touches the filesystem. -/
theorem singleFileStep_dry_fs (st : OrgState) (d : FPath) :
    (singleFileStep true st d).fs = st.fs := by
  dsimp only [singleFileStep]
  repeat' split
  all_goals first | rfl | exact absurd rfl (by assumption)

/-- Under --dry-run the RenameFile loop body never touches the filesystem. -/
theorem renameStep_dry_fs (valid : String → Bool)
    (extract : FPath → String → Except String String)
    (st : OrgState) (f : FPath) :
    (renameStep true valid extract st f).fs = st.fs := by
  dsimp only [renameStep]
  repeat' split
  all_goals first | rfl | exact absurd rfl (by assumption)

/-- Once sys.exit has run nothing further happens in the SingleFile loop. -/
theorem singleFileStep_exited (dryRun : Bool) (st : OrgState) (d : FPath)
    (h : st.exitCode.isSome = true) : singleFileStep dryRun st d = st := by
  unfold singleFileStep
  simp [h]

/-- Once sys.exit has run nothing further happens in the RenameFile loop. -/
theorem renameStep_exited (dryRun : Bool) (valid : String → Bool)
    (extract : FPath → String → Except String String)
    (st : OrgState) (f : FPath)
    (h : st.exitCode.isSome = true) : renameStep dryRun valid extract st f = st := by
  unfold renameStep
  simp [h]

/-- C7: MetaDataExtractor.generate_new_name_field concatenates the present
fields in the fixed order title, date, episode, episode_title, screen_size
joined by the dash separator, absent fields contributing nothing; on
{title Show, date 2020.01.02, episode E3} it yields Show-2020.01.02-E3 and on
{title Movie} alone it yields Movie. -/
theorem C7_new_name_synthesis :
    (∀ d : MetaFields, generate_new_name_field d = joinFields (presentFields d)) ∧
    generate_new_name_field
      { title := "Show", date := some "2020.01.02", episode := some "E3",
        episode_title := none, screen_size := none } = "Show-2020.01.02-E3" ∧
    generate_new_name_field
      { title := "Movie", date := none, episode := none, episode_title := none,
        screen_size := none } = "Movie" := by
  refine ⟨?_, rfl, rfl⟩
  rintro ⟨t, d, e, et, s⟩
  rcases d with _ | d <;> rcases e with _ | e <;> rcases et with _ | et <;>
    rcases s with _ | s <;>
      simp [generate_new_name_field, presentFields, joinFields, optField,
        String.append_assoc]

/-- C2: with a path that exists but is not a directory, main only prints the
not-a-directory diagnostic and still dispatches the selected organizer over
that path, instead of exiting nonzero as the sibling existence check does. -/
theorem C2_main_runs_on_nondirectory :
    mainDispatch false (some "single_file") true false
      = MainOutcome.ranOrganizer "single_file" true := by
  rfl

/-- C9: MetaDataExtractor.guess_it with absent -g options never reaches the
external guessit call: a short-date query exits via sys.exit and every other
query dies on the attribute access over None, so PatternRename over video
files cannot synthesize a name without a -g options string. -/
theorem C9_guess_it_requires_options (q : String)
    (h : shortDateSearch q = false) :
    guess_it none q = GuessItCall.crashed "NoneType has no attribute find" ∧
    ∀ (q2 opts : String), guess_it none q2 ≠ GuessItCall.calls opts := by
  constructor
  · unfold guess_it
    simp [h]
  · intro q2 opts
    unfold guess_it
    by_cases hq : shortDateSearch q2 = true
    · simp [hq]
    · simp only [Bool.not_eq_true] at hq
      simp [hq]

/-- C9 witness at the query Movie. -/
theorem C9_guess_it_requires_options_witness :
    shortDateSearch "Movie" = false ∧
    guess_it none "Movie" = GuessItCall.crashed "NoneType has no attribute find" :=
  ⟨by decide, (C9_guess_it_requires_options "Movie" (by decide)).1⟩

/-- C10: the glob of SingleFile.organize_file yields strict descendants only,
never the root itself; hence when no directory lies strictly below the root
(in particular when the root holds exactly one file and no subdirectory) the
run changes nothing, prints nothing and moves no file. -/
theorem C10_root_not_a_candidate (dryRun : Bool) (fs : FS) (root : FPath)
    (h : ∀ d ∈ fs.dirs, strictUnder root d = false) :
    singleFileOrganize dryRun fs root = { fs := fs, log := [], exitCode := none } ∧
    ∀ (fs2 : FS) (root2 : FPath),
      root2 ∉ fs2.dirs.filter (fun d => strictUnder root2 d) := by
  constructor
  · unfold singleFileOrganize
    have hfilter : fs.dirs.filter (fun d => strictUnder root d) = [] := by
      apply List.filter_eq_nil_iff.mpr
      intro d hd
      simp [h d hd]
    rw [hfilter]
    rfl
  · intro fs2 root2 hmem
    have := (List.mem_filter.mp hmem).2
    simp [strictUnder] at this

/-- C10 witness: a root holding exactly one file and no directory below it. -/
theorem C10_root_not_a_candidate_witness :
    (∀ d ∈ (FS.mk [["r", "f.txt"]] [["r"]]).dirs, strictUnder ["r"] d = false) ∧
    singleFileOrganize false (FS.mk [["r", "f.txt"]] [["r"]]) ["r"]
      = { fs := FS.mk [["r", "f.txt"]] [["r"]], log := [], exitCode := none } :=
  ⟨by decide, (C10_root_not_a_candidate false (FS.mk [["r", "f.txt"]] [["r"]])
    ["r"] (by decide)).1⟩

/-- C6: without --force, the HexOfbfuscated eligibility predicate accepts a
file exactly when every character of its stem is a hexadecimal digit; an
ineligible file is skipped with a log line, the run continues with the state
otherwise untouched, and the file is not renamed; with --force every file is
eligible. -/
theorem C6_hex_eligibility (dryRun : Bool) (name : String) (st : OrgState) (f : FPath)
    (extract : FPath → String → Except String String)
    (hexit : st.exitCode = none) (hname : nameOf f = name) :
    (is_current_file_name_valid_for_rename false name = true ↔
      ∀ c ∈ (nameStem name).data, c ∈ hexdigits) ∧
    (is_current_file_name_valid_for_rename false name = false →
      renameStep dryRun (is_current_file_name_valid_for_rename false) extract st f
        = { st with log := st.log ++ [Action.skip name] }) ∧
    is_current_file_name_valid_for_rename true name = true := by
  refine ⟨?_, ?_, rfl⟩
  · simp [is_current_file_name_valid_for_rename, List.all_eq_true, List.elem_iff]
  · intro hv
    dsimp only [renameStep]
    rw [hexit, hname]
    simp [hv]

/-- C6 witness at the ineligible name xyz.mkv. -/
theorem C6_hex_eligibility_witness :
    (is_current_file_name_valid_for_rename false "xyz.mkv" = true ↔
      ∀ c ∈ (nameStem "xyz.mkv").data, c ∈ hexdigits) ∧
    (is_current_file_name_valid_for_rename false "xyz.mkv" = false →
      renameStep false (is_current_file_name_valid_for_rename false)
        (fun _ _ => Except.ok "n")
        (OrgState.mk (FS.mk [["d", "xyz.mkv"]] [["d"]]) [] none) ["d", "xyz.mkv"]
        = { OrgState.mk (FS.mk [["d", "xyz.mkv"]] [["d"]]) [] none with
            log := [] ++ [Action.skip "xyz.mkv"] }) ∧
    is_current_file_name_valid_for_rename true "xyz.mkv" = true :=
  C6_hex_eligibility false "xyz.mkv"
    (OrgState.mk (FS.mk [["d", "xyz.mkv"]] [["d"]]) [] none) ["d", "xyz.mkv"]
    (fun _ _ => Except.ok "n") rfl rfl

/-- Evaluation of the SingleFile loop body on a qualifying directory: with
exactly one file F and no subdirectory, the step reduces to the
exists-then-abort-else-move-and-remove decision of the code. -/
theorem singleFileStep_collapse_eval (st : OrgState) (D F : FPath)
    (hexit : st.exitCode = none)
    (hcf : childrenFiles st.fs D = [F])
    (hcd : childrenDirs st.fs D = []) :
    singleFileStep false st D =
      if st.fs.existsPath (parentOf (parentOf F) ++ [nameOf F]) then
        { st with exitCode := some 1 }
      else
        { st with
            fs := (st.fs.renameFile F (parentOf (parentOf F) ++ [nameOf F])).removeDir D,
            log := st.log ++ [Action.move F (parentOf (parentOf F) ++ [nameOf F]),
                              Action.removeDir D] } := by
  dsimp only [singleFileStep]
  have hl : ([F].getLastD [] : FPath) = F := rfl
  simp only [hexit, hcf, hcd, Option.isSome_none, Bool.false_eq_true, if_false,
    List.length_singleton, List.length_nil, beq_self_eq_true, Bool.and_self, if_true, hl]

/-- C3: when the SingleFile loop reaches a directory D holding exactly one
file F and no subdirectory, it computes the target as F moved into the own
parent of D under the original name of F; if that target exists the whole run stops
with exit code 1 and nothing of D is touched (and every later step of the
run is a no-op), otherwise F now sits at the target, the old path of F and D are
gone, and the move and removal were printed. -/
theorem C3_single_file_collapse (st : OrgState) (D F : FPath)
    (hexit : st.exitCode = none)
    (hcf : childrenFiles st.fs D = [F])
    (hcd : childrenDirs st.fs D = [])
    (hproper : parentOf D ≠ D) :
    (st.fs.existsPath (parentOf D ++ [nameOf F]) = true →
      singleFileStep false st D = { st with exitCode := some 1 }) ∧
    (st.fs.existsPath (parentOf D ++ [nameOf F]) = false →
      (parentOf D ++ [nameOf F]) ∈ (singleFileStep false st D).fs.files ∧
      F ∉ (singleFileStep false st D).fs.files ∧
      D ∉ (singleFileStep false st D).fs.dirs ∧
      (singleFileStep false st D).log
        = st.log ++ [Action.move F (parentOf D ++ [nameOf F]), Action.removeDir D] ∧
      (singleFileStep false st D).exitCode = none) ∧
    (∀ (st2 : OrgState) (d2 : FPath), st2.exitCode = some 1 →
      singleFileStep false st2 d2 = st2) := by
  have hmemF : F ∈ childrenFiles st.fs D := by rw [hcf]; exact List.mem_singleton_self F
  have hpF : parentOf F = D := by
    have := (List.mem_filter.mp hmemF).2
    exact eq_of_beq this
  have heval := singleFileStep_collapse_eval st D F hexit hcf hcd
  rw [hpF] at heval
  have hFneT : F ≠ parentOf D ++ [nameOf F] := by
    intro heq
    apply hproper
    have h1 : parentOf (parentOf D ++ [nameOf F]) = parentOf D := List.dropLast_concat
    rw [← heq, hpF] at h1
    exact h1.symm
  refine ⟨?_, ?_, ?_⟩
  · intro hex
    rw [heval]
    simp [hex]
  · intro hex
    rw [heval]
    simp only [hex, Bool.false_eq_true, if_false]
    refine ⟨?_, ?_, ?_, by simp, by simp [hexit]⟩
    · simp [FS.renameFile, FS.removeDir]
    · simp only [FS.removeDir, FS.renameFile, List.mem_append, List.mem_filter,
        List.mem_singleton]
      rintro (⟨-, hpred⟩ | hFT)
      · simp at hpred
      · exact hFneT hFT
    · simp only [FS.removeDir, FS.renameFile, List.mem_filter]
      rintro ⟨-, hpred⟩
      simp at hpred
  · intro st2 d2 h2
    exact singleFileStep_exited false st2 d2 (by rw [h2]; rfl)

/-- C3 witness: the tree r containing the single-file directory r slash A. -/
theorem C3_single_file_collapse_witness :
    (FS.mk [["r", "A", "f.txt"]] [["r"], ["r", "A"]]).existsPath ["r", "f.txt"] = false ∧
    (["r", "f.txt"]
        ∈ (singleFileStep false
            (OrgState.mk (FS.mk [["r", "A", "f.txt"]] [["r"], ["r", "A"]]) [] none)
            ["r", "A"]).fs.files ∧
      ["r", "A", "f.txt"]
        ∉ (singleFileStep false
            (OrgState.mk (FS.mk [["r", "A", "f.txt"]] [["r"], ["r", "A"]]) [] none)
            ["r", "A"]).fs.files ∧
      ["r", "A"]
        ∉ (singleFileStep false
            (OrgState.mk (FS.mk [["r", "A", "f.txt"]] [["r"], ["r", "A"]]) [] none)
            ["r", "A"]).fs.dirs ∧
      (singleFileStep false
          (OrgState.mk (FS.mk [["r", "A", "f.txt"]] [["r"], ["r", "A"]]) [] none)
          ["r", "A"]).log
        = [] ++ [Action.move ["r", "A", "f.txt"] (parentOf ["r", "A"] ++ [nameOf ["r", "A", "f.txt"]]),
                 Action.removeDir ["r", "A"]] ∧
      (singleFileStep false
          (OrgState.mk (FS.mk [["r", "A", "f.txt"]] [["r"], ["r", "A"]]) [] none)
          ["r", "A"]).exitCode = none) :=
  ⟨by decide,
    (C3_single_file_collapse
      (OrgState.mk (FS.mk [["r", "A", "f.txt"]] [["r"], ["r", "A"]]) [] none)
      ["r", "A"] ["r", "A", "f.txt"] rfl (by decide) (by decide) (by decide)).2.1
      (by decide)⟩

/-- C4 counterexample: in the tree r slash A slash B slash f, the directory A
holds zero files and one subdirectory, so the claim promises no mutation on A
or its contents; yet the non-dry run collapses B, moving f into A and
removing B from A. -/
theorem C4_counterexample :
    childrenFiles (FS.mk [["r", "A", "B", "f"]] [["r"], ["r", "A"], ["r", "A", "B"]])
      ["r", "A"] = [] ∧
    childrenDirs (FS.mk [["r", "A", "B", "f"]] [["r"], ["r", "A"], ["r", "A", "B"]])
      ["r", "A"] = [["r", "A", "B"]] ∧
    (singleFileOrganize false
        (FS.mk [["r", "A", "B", "f"]] [["r"], ["r", "A"], ["r", "A", "B"]]) ["r"]).fs
      = FS.mk [["r", "A", "f"]] [["r"], ["r", "A"]] ∧
    childrenFiles
        (singleFileOrganize false
          (FS.mk [["r", "A", "B", "f"]] [["r"], ["r", "A"], ["r", "A", "B"]]) ["r"]).fs
        ["r", "A"]
      ≠ childrenFiles (FS.mk [["r", "A", "B", "f"]] [["r"], ["r", "A"], ["r", "A", "B"]])
        ["r", "A"] := by
  decide

/-- C4 amended: a directory with zero files, two or more files, or at least
one subdirectory is never itself collapsed: the loop body is a no-op when it
processes that directory (no move, no removal, no print, no exit); its
contents can still change when a qualifying subdirectory of it is collapsed
into it, as the counterexample records. -/
theorem C4_nonqualifying_dir_untouched (dryRun : Bool) (st : OrgState) (D : FPath)
    (h : (childrenFiles st.fs D).length ≠ 1 ∨ (childrenDirs st.fs D).length ≠ 0) :
    singleFileStep dryRun st D = st := by
  dsimp only [singleFileStep]
  split
  · rfl
  · have hcond : ((childrenFiles st.fs D).length == 1
        && (childrenDirs st.fs D).length == 0) = false := by
      rcases h with h | h <;> simp [h]
    rw [hcond]
    simp

/-- C4 witness: a directory holding two files is left alone. -/
theorem C4_nonqualifying_dir_untouched_witness :
    ((childrenFiles (FS.mk [["r", "A", "x"], ["r", "A", "y"]] [["r"], ["r", "A"]])
        ["r", "A"]).length ≠ 1 ∨
      (childrenDirs (FS.mk [["r", "A", "x"], ["r", "A", "y"]] [["r"], ["r", "A"]])
        ["r", "A"]).length ≠ 0) ∧
    singleFileStep false
        (OrgState.mk (FS.mk [["r", "A", "x"], ["r", "A", "y"]] [["r"], ["r", "A"]]) [] none)
        ["r", "A"]
      = OrgState.mk (FS.mk [["r", "A", "x"], ["r", "A", "y"]] [["r"], ["r", "A"]]) [] none :=
  ⟨by decide,
    C4_nonqualifying_dir_untouched false
      (OrgState.mk (FS.mk [["r", "A", "x"], ["r", "A", "y"]] [["r"], ["r", "A"]]) [] none)
      ["r", "A"] (by decide)⟩

/-- C5 counterexample: in the tree holding r slash D slash E1 slash f and
r slash D slash E2 slash f the dry run prints four actions (both collapses)
and exits cleanly, while the non-dry run performs the first collapse, then
aborts with exit code 1 on the target collision its own move created, having
printed only two actions — so dry-run reports do not match the non-dry-run
mutations. -/
theorem C5_counterexample :
    let fs0 : FS := FS.mk [["r", "D", "E1", "f"], ["r", "D", "E2", "f"]]
      [["r"], ["r", "D"], ["r", "D", "E1"], ["r", "D", "E2"]]
    (singleFileOrganize true fs0 ["r"]).fs = fs0 ∧
    (singleFileOrganize true fs0 ["r"]).exitCode = none ∧
    (singleFileOrganize true fs0 ["r"]).log
      = [Action.move ["r", "D", "E1", "f"] ["r", "D", "f"],
         Action.removeDir ["r", "D", "E1"],
         Action.move ["r", "D", "E2", "f"] ["r", "D", "f"],
         Action.removeDir ["r", "D", "E2"]] ∧
    (singleFileOrganize false fs0 ["r"]).log
      = [Action.move ["r", "D", "E1", "f"] ["r", "D", "f"],
         Action.removeDir ["r", "D", "E1"]] ∧
    (singleFileOrganize false fs0 ["r"]).exitCode = some 1 ∧
    (singleFileOrganize true fs0 ["r"]).log ≠ (singleFileOrganize false fs0 ["r"]).log := by
  decide

/-- C5 amended: dry-run never mutates the filesystem for either strategy;
but the actions it reports are computed against the initial snapshot, which
a non-dry run need not reproduce — the non-dry run can abort on a collision
created by its own earlier move, as the counterexample shows. -/
theorem C5_dry_run_never_mutates (fs : FS) (root : FPath) (mime : Option String)
    (mimeOf : FPath → Option String) (valid : String → Bool)
    (extract : FPath → String → Except String String) :
    (singleFileOrganize true fs root).fs = fs ∧
    (renameOrganize true mime mimeOf valid extract fs root).fs = fs := by
  constructor
  · exact foldl_fs_eq _ (fun st x => singleFileStep_dry_fs st x) _ _
  · exact foldl_fs_eq _ (fun st x => renameStep_dry_fs valid extract st x) _ _

/-- C1 counterexample: the directory Show holds the non-hex-named file
Show.bin and the hex-named file abc.bin; the computed rename target for
abc.bin is exactly the existing Show.bin, yet the non-dry run does not abort:
it performs the rename, and the filesystem ends with one file where it had
two — the existing Show.bin was overwritten. -/
theorem C1_counterexample :
    let fs0 : FS := FS.mk [["r", "Show", "Show.bin"], ["r", "Show", "abc.bin"]]
      [["r"], ["r", "Show"]]
    let res := renameOrganize false none (fun _ => none)
      (is_current_file_name_valid_for_rename false)
      (hexExtract (fun _ => none)
        (fun _ _ => GuessItOutput.mk none none none none none none) (fun _ => 0) none)
      fs0 ["r"]
    fs0.existsPath ["r", "Show", "Show.bin"] = true ∧
    res.exitCode = none ∧
    res.log = [Action.skip "Show.bin",
               Action.convert ["r", "Show", "abc.bin"] ["r", "Show", "Show.bin"]] ∧
    res.fs.files = [["r", "Show", "Show.bin"]] ∧
    fs0.files.length = 2 ∧
    res.fs.files.length = 1 := by
  decide

/-- C1 amended: RenameFile.organize_file checks nothing about the target
path: even when the computed target already holds a file, the loop body does
not abort — it performs the rename, after which the files are exactly the old
ones minus the source and the old target, plus the target, so the file that
was at the target is gone. -/
theorem C1_rename_has_no_existence_check (valid : String → Bool)
    (extract : FPath → String → Except String String)
    (st : OrgState) (f : FPath) (base : String)
    (hexit : st.exitCode = none)
    (hvalid : valid (nameOf f) = true)
    (hok : extract f (nameOf (parentOf f)) = Except.ok base)
    (_htarget : (parentOf f ++ [base ++ nameSuffix (nameOf f)]) ∈ st.fs.files) :
    (renameStep false valid extract st f).exitCode = none ∧
    (renameStep false valid extract st f).fs.files
      = st.fs.files.filter
          (fun g => !(g == f) && !(g == parentOf f ++ [base ++ nameSuffix (nameOf f)]))
        ++ [parentOf f ++ [base ++ nameSuffix (nameOf f)]] ∧
    (renameStep false valid extract st f).log
      = st.log ++ [Action.convert f (parentOf f ++ [base ++ nameSuffix (nameOf f)])] := by
  dsimp only [renameStep]
  simp only [hexit, Option.isSome_none, Bool.false_eq_true, if_false, hvalid,
    Bool.not_true, hok]
  trivial

/-- C1 amended witness at the tree of the counterexample. -/
theorem C1_rename_has_no_existence_check_witness :
    (is_current_file_name_valid_for_rename false
        (nameOf ["r", "Show", "abc.bin"]) = true) ∧
    (hexExtract (fun _ => none)
        (fun _ _ => GuessItOutput.mk none none none none none none) (fun _ => 0) none
        ["r", "Show", "abc.bin"] (nameOf (parentOf ["r", "Show", "abc.bin"]))
      = Except.ok "Show") ∧
    ((renameStep false (is_current_file_name_valid_for_rename false)
        (hexExtract (fun _ => none)
          (fun _ _ => GuessItOutput.mk none none none none none none) (fun _ => 0) none)
        (OrgState.mk
          (FS.mk [["r", "Show", "Show.bin"], ["r", "Show", "abc.bin"]] [["r"], ["r", "Show"]])
          [] none)
        ["r", "Show", "abc.bin"]).exitCode = none ∧
      (renameStep false (is_current_file_name_valid_for_rename false)
        (hexExtract (fun _ => none)
          (fun _ _ => GuessItOutput.mk none none none none none none) (fun _ => 0) none)
        (OrgState.mk
          (FS.mk [["r", "Show", "Show.bin"], ["r", "Show", "abc.bin"]] [["r"], ["r", "Show"]])
          [] none)
        ["r", "Show", "abc.bin"]).fs.files
        = (FS.mk [["r", "Show", "Show.bin"], ["r", "Show", "abc.bin"]]
            [["r"], ["r", "Show"]]).files.filter
            (fun g => !(g == ["r", "Show", "abc.bin"])
              && !(g == parentOf ["r", "Show", "abc.bin"]
                    ++ ["Show" ++ nameSuffix (nameOf ["r", "Show", "abc.bin"])]))
          ++ [parentOf ["r", "Show", "abc.bin"]
                ++ ["Show" ++ nameSuffix (nameOf ["r", "Show", "abc.bin"])]] ∧
      (renameStep false (is_current_file_name_valid_for_rename false)
        (hexExtract (fun _ => none)
          (fun _ _ => GuessItOutput.mk none none none none none none) (fun _ => 0) none)
        (OrgState.mk
          (FS.mk [["r", "Show", "Show.bin"], ["r", "Show", "abc.bin"]] [["r"], ["r", "Show"]])
          [] none)
        ["r", "Show", "abc.bin"]).log
        = [] ++ [Action.convert ["r", "Show", "abc.bin"]
            (parentOf ["r", "Show", "abc.bin"]
              ++ ["Show" ++ nameSuffix (nameOf ["r", "Show", "abc.bin"])])]) :=
  ⟨by decide, by rfl,
    C1_rename_has_no_existence_check (is_current_file_name_valid_for_rename false)
      (hexExtract (fun _ => none)
        (fun _ _ => GuessItOutput.mk none none none none none none) (fun _ => 0) none)
      (OrgState.mk
        (FS.mk [["r", "Show", "Show.bin"], ["r", "Show", "abc.bin"]] [["r"], ["r", "Show"]])
        [] none)
      ["r", "Show", "abc.bin"] "Show" rfl (by decide) (by rfl) (by decide)⟩

/-- One anchor position of a literal short date: two digits, a dot, two
digits, a dot, two digits. -/
def literalShortDateAt : List Char → Bool
  | c0 :: c1 :: c2 :: c3 :: c4 :: c5 :: c6 :: c7 :: _ =>
    c0.isDigit && c1.isDigit && c2 == '.' && c3.isDigit && c4.isDigit
      && c5 == '.' && c6.isDigit && c7.isDigit
  | _ => false

/-- A name containing a literal DD.DD.DD substring. -/
def hasLiteralShortDate (s : String) : Bool := s.data.tails.any literalShortDateAt

/-- A literal short-date anchor is matched by the regex anchor of the code
(the regex dots accept any non-newline character, so in particular a dot). -/
theorem shortDateAt_of_literal :
    ∀ l : List Char, literalShortDateAt l = true → shortDateAt l = true
  | c0 :: c1 :: c2 :: c3 :: c4 :: c5 :: c6 :: c7 :: rest, h => by
    simp only [literalShortDateAt, Bool.and_eq_true, beq_iff_eq, and_assoc] at h
    obtain ⟨h0, h1, h2, h3, h4, h5, h6, h7⟩ := h
    subst h2 h5
    simp only [shortDateAt, h0, h1, h3, h4, h6, h7]
    decide
  | [], h => by simp [literalShortDateAt] at h
  | [_], h => by simp [literalShortDateAt] at h
  | [_, _], h => by simp [literalShortDateAt] at h
  | [_, _, _], h => by simp [literalShortDateAt] at h
  | [_, _, _, _], h => by simp [literalShortDateAt] at h
  | [_, _, _, _, _], h => by simp [literalShortDateAt] at h
  | [_, _, _, _, _, _], h => by simp [literalShortDateAt] at h
  | [_, _, _, _, _, _, _], h => by simp [literalShortDateAt] at h

/-- A name containing a literal DD.DD.DD substring is matched by the
short-date search of the code. -/
theorem shortDateSearch_of_literal (s : String) (h : hasLiteralShortDate s = true) :
    shortDateSearch s = true := by
  unfold hasLiteralShortDate at h
  unfold shortDateSearch
  rw [List.any_eq_true] at h ⊢
  obtain ⟨l, hl, hlit⟩ := h
  exact ⟨l, hl, shortDateAt_of_literal l hlit⟩

/-- C8 counterexample: the run over two video files renames the first
candidate (directory Movie), then reaches the candidate under directory
Show.20.01.02 — a literal DD.DD.DD name — with -g options lacking every
date-order option, and only then exits with code 1: the abort happens after
a filesystem mutation, not before any. -/
theorem C8_counterexample :
    let mo : FPath → Option String := fun _ => some "video/x-matroska"
    let gf : String → String → GuessItOutput :=
      fun _ _ => GuessItOutput.mk (some "Movie") none none none none none
    let fs0 : FS := FS.mk [["r", "Movie", "aa.mkv"], ["r", "Show.20.01.02", "bb.mkv"]]
      [["r"], ["r", "Movie"], ["r", "Show.20.01.02"]]
    let res := renameOrganize false none mo (is_current_file_name_valid_for_rename false)
      (hexExtract mo gf (fun _ => 1080) (some "-s")) fs0 ["r"]
    hasLiteralShortDate "Show.20.01.02" = true ∧
    guessit_short_date_options.all (fun o => !(containsSeq "-s" o)) = true ∧
    res.exitCode = some 1 ∧
    res.fs ≠ fs0 ∧
    res.fs.files = [["r", "Show.20.01.02", "bb.mkv"], ["r", "Movie", "Movie-1080p.mkv"]] ∧
    res.log = [Action.convert ["r", "Movie", "aa.mkv"] ["r", "Movie", "Movie-1080p.mkv"]] := by
  decide

/-- C8 amended: a suggested name holding a literal DD.DD.DD substring, with
-g options absent or containing none of the four date-order options, makes
guess_it exit with a nonzero status; the loop body then stops the run with
exit code 1 without renaming the triggering file, and every later step is a
no-op — but renames of candidates processed earlier in the same run have
already happened, as the counterexample records. -/
theorem C8_short_date_aborts (opts : Option String) (q : String)
    (hdate : hasLiteralShortDate q = true)
    (hopts : (opts.isNone || guessit_short_date_options.all
      (fun o => !(containsSeq (opts.getD "") o))) = true) :
    guess_it opts q = GuessItCall.exited "Short date detected" ∧
    (∀ (dryRun : Bool) (valid : String → Bool)
        (extract : FPath → String → Except String String)
        (st : OrgState) (f : FPath) (e : String),
      st.exitCode = none → valid (nameOf f) = true →
      extract f (nameOf (parentOf f)) = Except.error e →
      renameStep dryRun valid extract st f = { st with exitCode := some 1 }) ∧
    (∀ (dryRun : Bool) (valid : String → Bool)
        (extract : FPath → String → Except String String)
        (st : OrgState) (f : FPath),
      st.exitCode = some 1 → renameStep dryRun valid extract st f = st) := by
  refine ⟨?_, ?_, ?_⟩
  · unfold guess_it
    rw [shortDateSearch_of_literal q hdate]
    simp only [Bool.true_and, hopts, if_true]
  · intro dryRun valid extract st f e hexit hvalid herr
    dsimp only [renameStep]
    simp only [hexit, Option.isSome_none, Bool.false_eq_true, if_false, hvalid,
      Bool.not_true, herr]
  · intro dryRun valid extract st f h2
    exact renameStep_exited dryRun valid extract st f (by rw [h2]; rfl)

/-- C8 amended witness at the name Show.20.01.02 with options -s. -/
theorem C8_short_date_aborts_witness :
    hasLiteralShortDate "Show.20.01.02" = true ∧
    ((some "-s" : Option String).isNone || guessit_short_date_options.all
      (fun o => !(containsSeq ((some "-s" : Option String).getD "") o))) = true ∧
    guess_it (some "-s") "Show.20.01.02" = GuessItCall.exited "Short date detected" :=
  ⟨by decide, by decide,
    (C8_short_date_aborts (some "-s") "Show.20.01.02" (by decide) (by decide)).1⟩

end FileOrganizer
